import Mathlib

/-!
Verification of the SAML identity-provider middleware (`middleware/idp/middleware.go`).

The development shallowly embeds the middleware's operations:

* the wire codec used by `ServeSSO`: standard base64 (Go `encoding/base64`,
  `StdEncoding`), raw-DEFLATE decompression (Go `compress/flate` read through
  `ioutil.ReadAll`), and XML unmarshalling of the SAML request;
* the HTTP handlers `ServeMetadata` and `ServeSSO` over an explicit
  response-writer state;
* the constructor `NewMiddleware`;
* the redirect-form renderer and the response encoder.

Bytes are `Nat` values (with explicit `< 256` bounds where they matter) and
strings are `String` or `List Char`.  Collaborator operations that live in the
`saml` package (assertion and response construction, XML codecs for the SAML
document types) are abstract parameters or definitions modelled from the spec,
as marked in their doc comments.
-/

/-- Characters of a string literal. -/
def str (s : String) : List Char := s.data

/-- Bytes of an ASCII string literal. -/
def bytes (s : String) : List Nat := s.data.map Char.toNat

/-! ## Base64, Go `encoding/base64` `StdEncoding`

`EncodeToString` emits 4 alphabet characters for every 3 input bytes, padding
the final group with `=`.  `DecodeString` ignores CR and LF, requires the
remaining input to be whole 4-character groups, accepts `=` padding only at
the very end, and rejects any character outside the alphabet. -/

/-- The standard base64 alphabet. -/
def b64Alphabet : List Char :=
  str ("ABCDEFGHIJKLMNOPQRSTUVWXYZabcdefghijklmnopqrstuvwxyz0123456789+/")

/-- Character for a 6-bit value. -/
def b64Char (n : Nat) : Char := b64Alphabet.getD n 'A'

/-- Index of a character in a list, if present. -/
def idxIn : List Char → Char → Option Nat
  | [], _ => none
  | a :: t, c => if a = c then some 0 else (idxIn t c).map (· + 1)

/-- Sextet value of an alphabet character, `none` outside the alphabet. -/
def b64Index (c : Char) : Option Nat := idxIn b64Alphabet c

/-- Go `base64.StdEncoding.EncodeToString`: 3 bytes to 4 chars, `=`-padded. -/
def base64Encode : List Nat → List Char
  | [] => []
  | [a] => [b64Char (a / 4), b64Char (a % 4 * 16), '=', '=']
  | [a, b] => [b64Char (a / 4), b64Char (a % 4 * 16 + b / 16), b64Char (b % 16 * 4), '=']
  | a :: b :: c :: rest =>
      b64Char (a / 4) :: b64Char (a % 4 * 16 + b / 16) ::
      b64Char (b % 16 * 4 + c / 64) :: b64Char (c % 64) :: base64Encode rest

/-- Decode whole 4-character groups; `=` padding allowed only in the final
group, and nothing may follow a padded group. -/
def decodeGroups : List Char → Option (List Nat)
  | [] => some []
  | a :: b :: c :: d :: rest =>
    match b64Index a, b64Index b with
    | some x, some y =>
      if c = '=' then
        if d = '=' ∧ rest = [] then some [x * 4 + y / 16] else none
      else
        match b64Index c with
        | some z =>
          if d = '=' then
            if rest = [] then some [x * 4 + y / 16, y % 16 * 16 + z / 4] else none
          else
            match b64Index d with
            | some u =>
              (decodeGroups rest).map
                (fun t => (x * 4 + y / 16) :: (y % 16 * 16 + z / 4) :: (z % 4 * 64 + u) :: t)
            | none => none
        | none => none
    | _, _ => none
  | _ => none

/-- Go `base64.StdEncoding.DecodeString`: CR and LF are skipped anywhere,
then the input is decoded in 4-character groups. -/
def base64Decode (s : List Char) : Option (List Nat) :=
  decodeGroups (s.filter (fun c => !(c == '\n') && !(c == '\r')))


/-! ## Raw DEFLATE, Go `compress/flate` read via `ioutil.ReadAll`

`flate.NewReader` consumes a raw-DEFLATE stream (RFC 1951): a sequence of
blocks, each starting with a 3-bit header `BFINAL`/`BTYPE`.  The model covers
stored blocks (`BTYPE = 0`, the block kind the modelled compressor emits): the
header bits are followed by padding to the byte boundary, a little-endian
16-bit length `LEN`, its ones-complement `NLEN`, and `LEN` literal bytes.
Compressed block types (`BTYPE = 1, 2`) are outside the model and mapped to a
decoding failure, as is the reserved `BTYPE = 3`, an `NLEN` mismatch and a
truncated stream (`ReadAll` reads to the end of the final block, so truncation
is always detected; trailing bytes after the final block are not consumed). -/

/-- Decode a sequence of raw-DEFLATE stored blocks. -/
def inflateBlocks : List Nat → Option (List Nat)
  | [] => none
  | hdr :: rest =>
    if hdr / 2 % 4 = 0 then
      match rest with
      | lenLo :: lenHi :: nlenLo :: nlenHi :: body =>
        if nlenLo + 256 * nlenHi = 65535 - (lenLo + 256 * lenHi) then
          if body.length < lenLo + 256 * lenHi then none
          else if hdr % 2 = 1 then some (body.take (lenLo + 256 * lenHi))
          else (inflateBlocks (body.drop (lenLo + 256 * lenHi))).map
                 (fun t => body.take (lenLo + 256 * lenHi) ++ t)
        else none
      | _ => none
    else none
  termination_by l => l.length
  decreasing_by
    simp only [List.length_cons, List.length_drop]
    omega

/-- Go `ioutil.ReadAll(flate.NewReader(bytes.NewBuffer(data)))`, returning
`none` where the Go code returns a non-nil error. -/
def inflate (data : List Nat) : Option (List Nat) := inflateBlocks data

/-- A raw-DEFLATE compressor emitting stored blocks of at most 65535 bytes;
the reference compression for the round-trip property (the inbound
`SAMLRequest` is compressed by the service provider, outside this program). -/
def deflateStored (data : List Nat) : List Nat :=
  if data.length ≤ 65535 then
    1 :: data.length % 256 :: data.length / 256 ::
      (65535 - data.length) % 256 :: (65535 - data.length) / 256 :: data
  else
    0 :: 255 :: 255 :: 0 :: 0 ::
      (data.take 65535 ++ deflateStored (data.drop 65535))
  termination_by data.length
  decreasing_by
    simp only [List.length_drop]
    omega


/-! ## SAML document carriers and the codec pipeline of `ServeSSO` -/

/-- Modelled from the spec: `saml.AuthnRequest` lives in the `saml` package,
outside the provided source; §3 lists its attributes (protocol version, issue
instant, issuer identifier, requested binding).  The carrier is opaque to the
middleware, which parses it and hands it to the collaborator unchanged. -/
structure AuthnRequest where
  version : String
  issueInstant : String
  issuer : String
  protocolBinding : String
deriving DecidableEq

/-- Failure classification of the three decode steps of `ServeSSO`
(`base64.StdEncoding.DecodeString`, `ioutil.ReadAll(flate.NewReader(...))`,
`xml.Unmarshal`), per §4.1 / §7. -/
inductive CodecError : Type
  | DecodeError
  | InflateError
  | XMLParseError
deriving DecidableEq

/-- The three-step decode sequence of `ServeSSO` (lines 100–119): each step
runs only on the previous step's output, and the first failing step selects
the error. -/
def codecPipeline {α β γ : Type} (dec : List Char → Option α) (inf : α → Option β)
    (parse : β → Option γ) (raw : List Char) : Except CodecError γ :=
  match dec raw with
  | none => .error .DecodeError
  | some data =>
    match inf data with
    | none => .error .InflateError
    | some buf =>
      match parse buf with
      | none => .error .XMLParseError
      | some v => .ok v

/-- The decode sequence of `ServeSSO` instantiated with the concrete base64
and DEFLATE readers; XML unmarshalling of `saml.AuthnRequest` (Go
`xml.Unmarshal` on a type from the `saml` package) stays abstract. -/
def decodeAuthnRequest (parse : List Nat → Option AuthnRequest) (raw : List Char) :
    Except CodecError AuthnRequest :=
  codecPipeline base64Decode inflate parse raw

/-! ## Response documents and `EncodeResponse`

`ServeSSO` (lines 148–158) marshals `idpAuthnRequest.Response` with
`xml.MarshalIndent(…, "", "\t")` and standard-base64-encodes the bytes. -/

/-- Modelled from the spec: `saml.Response` lives in the `saml` package,
outside the provided source; §3 describes it as the protocol envelope
wrapping the assertion.  The carrier keeps two attributes and one child
element, enough to exercise marshalling, indentation and escaping. -/
structure Response where
  destination : List Nat
  inResponseTo : List Nat
  statusCode : List Nat
deriving DecidableEq

/-- XML escaping of one byte: `&`, `<`, `>` and `"` become entities. -/
def escByte (b : Nat) : List Nat :=
  if b = 38 then [38, 97, 109, 112, 59]
  else if b = 60 then [38, 108, 116, 59]
  else if b = 62 then [38, 103, 116, 59]
  else if b = 34 then [38, 35, 51, 52, 59]
  else [b]

/-- XML escaping of a byte string. -/
def escXml (s : List Nat) : List Nat := s.flatMap escByte

/-- Inverse of `escXml`: expand the four entities back to bytes. -/
def unescXml : List Nat → List Nat
  | [] => []
  | b :: t =>
    if b = 38 then
      if t.take 4 = [97, 109, 112, 59] then 38 :: unescXml (t.drop 4)
      else if t.take 3 = [108, 116, 59] then 60 :: unescXml (t.drop 3)
      else if t.take 3 = [103, 116, 59] then 62 :: unescXml (t.drop 3)
      else if t.take 4 = [35, 51, 52, 59] then 34 :: unescXml (t.drop 4)
      else b :: unescXml t
    else b :: unescXml t
  termination_by s => s.length
  decreasing_by
    all_goals simp only [List.length_cons, List.length_drop]
    all_goals omega

/-- Modelled from the spec: `xml.MarshalIndent(resp, "", "\t")` on the
envelope carrier — tab-indented XML with escaped attribute values and
element content. -/
def marshalResponse (r : Response) : List Nat :=
  bytes ("<Response Destination=\"") ++ escXml r.destination ++
  bytes ("\" InResponseTo=\"") ++ escXml r.inResponseTo ++
  bytes ("\">\n\t<StatusCode>") ++ escXml r.statusCode ++
  bytes ("</StatusCode>\n</Response>")

/-- Split a byte string at the first occurrence of `q`, dropping it. -/
def splitAtByte (q : Nat) : List Nat → Option (List Nat × List Nat)
  | [] => none
  | b :: t =>
    if b = q then some ([], t)
    else (splitAtByte q t).map (fun p => (b :: p.1, p.2))

/-- Strip an expected literal from the front of a byte string. -/
def stripLit : List Nat → List Nat → Option (List Nat)
  | [], s => some s
  | _ :: _, [] => none
  | x :: xs, y :: ys => if x = y then stripLit xs ys else none

/-- Modelled from the spec: `xml.Unmarshal` into the envelope carrier — the
inverse reading of the marshalResponse document shape. -/
def unmarshalResponse (s : List Nat) : Option Response :=
  (stripLit (bytes ("<Response Destination=\"")) s).bind fun s1 =>
  (splitAtByte 34 s1).bind fun p1 =>
  (stripLit (bytes (" InResponseTo=\"")) p1.2).bind fun s2 =>
  (splitAtByte 34 s2).bind fun p2 =>
  (stripLit (bytes (">\n\t<StatusCode>")) p2.2).bind fun s3 =>
  (splitAtByte 60 s3).bind fun p3 =>
  if p3.2 = bytes ("/StatusCode>\n</Response>") then
    some { destination := unescXml p1.1, inResponseTo := unescXml p2.1,
           statusCode := unescXml p3.1 }
  else none

/-- Spec §4.1 `EncodeResponse`: marshal to tab-indented XML, then
standard-base64-encode, as `ServeSSO` does at lines 148–158. -/
def encodeResponse (r : Response) : List Char :=
  base64Encode (marshalResponse r)

/-! ## The HTTP response writer and `writeErr` -/

/-- The observable state of an `http.ResponseWriter`: the status code (set
explicitly by `WriteHeader` or implicitly to 200 by the first `Write`), the
header map, and the accumulated body bytes. -/
structure RW where
  status : Option Nat
  headers : List (String × String)
  body : List Nat
deriving DecidableEq

/-- A fresh response recorder. -/
def emptyRW : RW := ⟨none, [], []⟩

/-- Go `Header().Set`: replace any previous value of the key. -/
def RW.setHeader (w : RW) (k v : String) : RW :=
  { w with headers := (k, v) :: w.headers.filter (fun p => !(p.1 == k)) }

/-- Go `WriteHeader`: the first status code set wins. -/
def RW.writeHeader (w : RW) (code : Nat) : RW :=
  { w with status := some (w.status.getD code) }

/-- Go `Write`: append body bytes, implicitly committing status 200 first. -/
def RW.write (w : RW) (out : List Nat) : RW :=
  { w with status := some (w.status.getD 200), body := w.body ++ out }

/-- Modelled from the spec: `writeErr` is defined outside the provided
source; §7 requires a generic opaque error response with no internal
detail.  It writes status 500 and a fixed message. -/
def writeErr (w : RW) : RW :=
  (w.writeHeader 500).write (bytes ("internal server error\n"))

/-! ## `ServeMetadata` -/

/-- The XML declaration literal written by `ServeMetadata` (line 66). -/
def xmlDeclBytes : List Nat :=
  bytes ("<?xml version=\"1.0\" encoding=\"UTF-8\"?>\n")

/-- Handler `ServeMetadata`, parameterised over the collaborator `Metadata()`
result and over `xml.MarshalIndent(metadata, "", "\t")` (both produced by
the `saml` package, outside the provided source). -/
def serveMetadata {ε μ : Type} (metadata : Except ε μ)
    (marshalIndent : μ → Option (List Nat)) (w : RW) : RW :=
  match metadata with
  | .error _ => writeErr w
  | .ok md =>
    match marshalIndent md with
    | none => writeErr w
    | some out =>
      ((w.setHeader ("Content-Type") ("application/xml; charset=utf8")).write
        xmlDeclBytes).write out

/-! ## `NewMiddleware` -/

/-- Modelled from the spec: `saml.IdentityProvider` lives in the `saml`
package; the middleware only stores the pointer. -/
structure IdentityProvider where
  entityID : String
deriving DecidableEq

/-- The middleware value holding the identity provider. -/
structure Middleware where
  idp : IdentityProvider
deriving DecidableEq

/-- Result of a Go function that may `panic` instead of returning. -/
inductive PanicOr (α : Type) : Type
  | panicked (msg : String)
  | ok (m : α)
deriving DecidableEq

/-- Constructor `NewMiddleware` (lines 44–49): a nil identity provider panics, any other
is stored as the `idp` field.  Go's nil pointer is `none`. -/
def NewMiddleware : Option IdentityProvider → PanicOr Middleware
  | none => .panicked ("IdP cannot be a nil value.")
  | some idp => .ok { idp := idp }

/-! ## `ServeSSO` -/

/-- Go `url.Values.Get`: first value for the key, empty when absent. -/
def valuesGet (vs : List (String × List Char)) (k : String) : List Char :=
  match vs.find? (fun p => p.1 == k) with
  | some p => p.2
  | none => []

/-- Modelled from the spec: the assertion produced by the collaborator; the
middleware reads only `Subject.SubjectConfirmation.SubjectConfirmationData.Recipient`
(line 156). -/
structure SubjectConfirmationData where
  recipient : List Char
deriving DecidableEq

/-- Subject confirmation wrapper. -/
structure SubjectConfirmation where
  subjectConfirmationData : SubjectConfirmationData
deriving DecidableEq

/-- Subject wrapper. -/
structure Subject where
  subjectConfirmation : SubjectConfirmation
deriving DecidableEq

/-- The collaborator-produced assertion, opaque except for the recipient. -/
structure Assertion where
  subject : Subject
deriving DecidableEq

/-- The redirect form value built by `ServeSSO` (lines 155–159). -/
structure RedirectForm where
  formAction : List Char
  relayState : List Char
  samlResponse : List Char
deriving DecidableEq

/-- HTML escaping of one character, as the Go template `html` escaper does:
angle brackets, ampersand, apostrophe and double quote become entities. -/
def escChar (c : Char) : List Char :=
  if c = '<' then str ("&lt;")
  else if c = '>' then str ("&gt;")
  else if c = '&' then str ("&amp;")
  else if c = Char.ofNat 39 then str ("&#39;")
  else if c = Char.ofNat 34 then str ("&#34;")
  else [c]

/-- HTML escaping of a string. -/
def htmlEscape (s : List Char) : List Char := s.flatMap escChar

/-- Modelled from the spec: `redirectFormTemplate` is a fixed internal
constant defined outside the provided source.  §4.2: a `method="post"` form
targeting `FormAction`, a hidden `SAMLResponse` input, a hidden `RelayState`
input only when the relay state is non-empty, script auto-submit with a
visible fallback control, and HTML-escaping of all substituted values. -/
def renderRedirectForm (f : RedirectForm) : List Char :=
  str ("<html><body onload=\"document.forms[0].submit()\"><form method=\"post\" action=\"")
  ++ htmlEscape f.formAction
  ++ str ("\"><input type=\"hidden\" name=\"SAMLResponse\" value=\"")
  ++ htmlEscape f.samlResponse
  ++ str ("\" />")
  ++ (if f.relayState = [] then []
      else str ("<input type=\"hidden\" name=\"RelayState\" value=\"")
        ++ htmlEscape f.relayState ++ str ("\" />"))
  ++ str ("<noscript><input type=\"submit\" value=\"Submit\" /></noscript></form></body></html>")

/-- Handler `ServeSSO` (lines 88–173) over one exchange.  `hook` is the state of the
response writer after the authentication hook ran together with the session
it returned (`none` = the hook returned an error); `vs` the parsed request
query; the remaining parameters are the `saml`-package collaborator calls
`MakeAssertion`, `MarshalAssertion`, `MakeResponse` and
`xml.MarshalIndent(Response, "", "\t")`, abstract here.  Template parsing of
the fixed internal constant and its execution into a buffer cannot fail in
the model, matching §4.2's expectation for those two checked-but-unreachable
error paths. -/
def serveSSO {σ : Type}
    (hook : RW × Option σ)
    (vs : List (String × List Char))
    (parse : List Nat → Option AuthnRequest)
    (makeAssertion : σ → AuthnRequest → Option Assertion)
    (marshalAssertion : Assertion → Option Assertion)
    (makeResponse : Assertion → Option Response)
    (marshalRespIndent : Response → Option (List Nat)) : RW :=
  match hook with
  | (w, none) => w
  | (w, some sess) =>
    let relayState := valuesGet vs ("RelayState")
    let samlRequest := valuesGet vs ("SAMLRequest")
    match base64Decode samlRequest with
    | none => writeErr w
    | some data =>
    match inflate data with
    | none => writeErr w
    | some buf =>
    match parse buf with
    | none => writeErr w
    | some authnRequest =>
    match makeAssertion sess authnRequest with
    | none => writeErr w
    | some assertion =>
    match marshalAssertion assertion with
    | none => writeErr w
    | some assertion2 =>
    match makeResponse assertion2 with
    | none => writeErr w
    | some response =>
    match marshalRespIndent response with
    | none => writeErr w
    | some out =>
      let form : RedirectForm :=
        { formAction := assertion2.subject.subjectConfirmation.subjectConfirmationData.recipient
          relayState := relayState
          samlResponse := base64Encode out }
      (w.setHeader ("Content-Type") ("text/html")).write
        ((renderRedirectForm form).map Char.toNat)

/-! ## Membership and prefix helpers used by the claim statements -/

/-- Predicate: `p` occurs contiguously inside `l`. -/
def occursIn (p l : List Char) : Prop := ∃ u v, l = u ++ p ++ v

/-- Boolean prefix test on byte strings. -/
def beginsWith : List Nat → List Nat → Bool
  | [], _ => true
  | _ :: _, [] => false
  | x :: xs, y :: ys => x == y && beginsWith xs ys

/-! ## Theorems -/

theorem b64Char_spec : ∀ n, n < 64 →
    b64Index (b64Char n) = some n ∧ b64Char n ≠ '=' ∧
    (!(b64Char n == '\n') && !(b64Char n == '\r')) = true := by decide

theorem base64_encode_decode : ∀ bs : List Nat, (∀ x ∈ bs, x < 256) →
    base64Decode (base64Encode bs) = some bs
  | [], _ => rfl
  | [a], h => by
    have ha : a < 256 := h a (by simp)
    have h1 := b64Char_spec (a / 4) (by omega)
    have h2 := b64Char_spec (a % 4 * 16) (by omega)
    simp only [base64Encode, base64Decode, List.filter, h1.2.2, h2.2.2]
    simp only [decodeGroups, h1.1, h2.1]
    simp
    omega
  | [a, b], h => by
    have ha : a < 256 := h a (by simp)
    have hb : b < 256 := h b (by simp)
    have h1 := b64Char_spec (a / 4) (by omega)
    have h2 := b64Char_spec (a % 4 * 16 + b / 16) (by omega)
    have h3 := b64Char_spec (b % 16 * 4) (by omega)
    simp only [base64Encode, base64Decode, List.filter, h1.2.2, h2.2.2, h3.2.2]
    simp only [decodeGroups, h1.1, h2.1, h3.1]
    simp [h3.2.1]
    omega
  | a :: b :: c :: rest, h => by
    have ha : a < 256 := h a (by simp)
    have hb : b < 256 := h b (by simp)
    have hc : c < 256 := h c (by simp)
    have ih := base64_encode_decode rest (by intro x hx; exact h x (by simp [hx]))
    have h1 := b64Char_spec (a / 4) (by omega)
    have h2 := b64Char_spec (a % 4 * 16 + b / 16) (by omega)
    have h3 := b64Char_spec (b % 16 * 4 + c / 64) (by omega)
    have h4 := b64Char_spec (c % 64) (by omega)
    simp only [base64Decode] at ih ⊢
    simp only [base64Encode, List.filter, h1.2.2, h2.2.2, h3.2.2, h4.2.2]
    simp only [decodeGroups, h1.1, h2.1, h3.1, h4.1]
    simp [h3.2.1, h4.2.1, ih]
    omega

theorem base64Decode_nil : base64Decode [] = some [] := rfl

theorem take_app_len {α : Type} (l m : List α) : (l ++ m).take l.length = l := by
  induction l with
  | nil => simp
  | cons a t ih => simp [ih]

theorem drop_app_len {α : Type} (l m : List α) : (l ++ m).drop l.length = m := by
  induction l with
  | nil => simp
  | cons a t ih => simp [ih]

theorem take_app_of_len {α : Type} (n : Nat) (l m : List α) (h : l.length = n) :
    (l ++ m).take n = l := by
  subst h
  exact take_app_len l m

theorem drop_app_of_len {α : Type} (n : Nat) (l m : List α) (h : l.length = n) :
    (l ++ m).drop n = m := by
  subst h
  exact drop_app_len l m

theorem inflate_deflateStored (data : List Nat) :
    inflate (deflateStored data) = some data := by
  rw [inflate]
  by_cases h : data.length ≤ 65535
  · rw [deflateStored, if_pos h]
    rw [inflateBlocks]
    have e1 : data.length % 256 + 256 * (data.length / 256) = data.length := by omega
    have e2 : (65535 - data.length) % 256 + 256 * ((65535 - data.length) / 256)
        = 65535 - data.length := by omega
    simp [e1, e2]
  · rw [deflateStored, if_neg h]
    have ih := inflate_deflateStored (data.drop 65535)
    rw [inflate] at ih
    rw [inflateBlocks]
    have hlen : (data.take 65535).length = 65535 := by
      simp [List.length_take]
      omega
    have htk := take_app_of_len 65535 (data.take 65535) (deflateStored (data.drop 65535)) hlen
    have hdr2 := drop_app_of_len 65535 (data.take 65535) (deflateStored (data.drop 65535)) hlen
    have hge : ¬ (data.take 65535 ++ deflateStored (data.drop 65535)).length
        < 255 + 256 * 255 := by
      rw [List.length_append, hlen]
      omega
    norm_num [hge, htk, hdr2, ih, List.take_append_drop]
    intro hlt
    have hmin : 65535 ⊓ data.length = 65535 := inf_eq_left.mpr (by omega)
    rw [hmin] at hlt
    omega
termination_by data.length
decreasing_by
  simp only [List.length_drop]
  omega


/-- Claim C3: when the authentication hook returns an error (`none` session),
`ServeSSO` leaves the response writer exactly as the hook left it — zero
bytes written, no status, no header — and runs no later step of the
exchange. -/
theorem serveSSO_hook_failure_writes_nothing {σ : Type} (w : RW)
    (vs : List (String × List Char))
    (parse : List Nat → Option AuthnRequest)
    (makeAssertion : σ → AuthnRequest → Option Assertion)
    (marshalAssertion : Assertion → Option Assertion)
    (makeResponse : Assertion → Option Response)
    (marshalRespIndent : Response → Option (List Nat)) :
    serveSSO (w, (none : Option σ)) vs parse makeAssertion marshalAssertion
      makeResponse marshalRespIndent = w := rfl

/-- Claim C9: `NewMiddleware` panics on a nil identity provider and wraps any
non-nil one as the `idp` field, so every constructed middleware holds a
non-nil identity provider. -/
theorem newMiddleware_requires_idp :
    NewMiddleware none = .panicked ("IdP cannot be a nil value.")
    ∧ ∀ idp : IdentityProvider, NewMiddleware (some idp) = .ok { idp := idp } :=
  ⟨rfl, fun _ => rfl⟩

/-- Claim C8: when the metadata collaborator fails, `ServeMetadata` writes
only the generic error response: the result is exactly `writeErr` of the
incoming writer, carries status 500, and its body starts with no XML
declaration. -/
theorem serveMetadata_error_writes_no_xml {ε μ : Type} (e : ε)
    (marshalIndent : μ → Option (List Nat)) (w : RW) :
    serveMetadata (Except.error e) marshalIndent w = writeErr w
    ∧ (writeErr emptyRW).status = some 500
    ∧ beginsWith xmlDeclBytes (writeErr emptyRW).body = false :=
  ⟨rfl, rfl, by decide⟩

/-- Claim C6: on the success path `ServeMetadata` sets
`Content-Type: application/xml; charset=utf8` and writes the literal XML
declaration, a newline, then the marshalled metadata, with status 200. -/
theorem serveMetadata_success_output {ε μ : Type} (md : μ)
    (marshalIndent : μ → Option (List Nat)) (out : List Nat)
    (h : marshalIndent md = some out) :
    serveMetadata (Except.ok (ε := ε) md) marshalIndent emptyRW =
      { status := some 200,
        headers := [("Content-Type", "application/xml; charset=utf8")],
        body := xmlDeclBytes ++ out }
    ∧ xmlDeclBytes = bytes ("<?xml version=\"1.0\" encoding=\"UTF-8\"?>") ++ [10] := by
  constructor
  · simp only [serveMetadata, h]
    rfl
  · decide

/-- Claim C6 witness: a concrete collaborator result. -/
theorem serveMetadata_success_output_witness :
    serveMetadata (Except.ok (ε := Unit) (0 : Nat))
      (fun _ => some (bytes ("<EntityDescriptor/>"))) emptyRW =
      { status := some 200,
        headers := [("Content-Type", "application/xml; charset=utf8")],
        body := xmlDeclBytes ++ bytes ("<EntityDescriptor/>") }
    ∧ xmlDeclBytes = bytes ("<?xml version=\"1.0\" encoding=\"UTF-8\"?>") ++ [10] :=
  serveMetadata_success_output (0 : Nat) (fun _ => some (bytes ("<EntityDescriptor/>")))
    (bytes ("<EntityDescriptor/>")) rfl

/-- Claim C2: the three decode steps of `ServeSSO` run in order — base64,
full DEFLATE read, XML parse — each only after the previous succeeded; the
first failure short-circuits the rest (the result no longer depends on the
later steps) and is classified `DecodeError`, `InflateError` or
`XMLParseError` by the failing step. -/
theorem decode_pipeline_order_and_classification
    (parse : List Nat → Option AuthnRequest) (raw : List Char) :
    (base64Decode raw = none →
      decodeAuthnRequest parse raw = .error CodecError.DecodeError
      ∧ ∀ (inf' : List Nat → Option (List Nat))
          (parse' : List Nat → Option AuthnRequest),
          codecPipeline base64Decode inf' parse' raw
            = .error CodecError.DecodeError)
    ∧ (∀ d, base64Decode raw = some d → inflate d = none →
        decodeAuthnRequest parse raw = .error CodecError.InflateError
        ∧ ∀ parse' : List Nat → Option AuthnRequest,
            decodeAuthnRequest parse' raw = .error CodecError.InflateError)
    ∧ (∀ d b, base64Decode raw = some d → inflate d = some b → parse b = none →
        decodeAuthnRequest parse raw = .error CodecError.XMLParseError)
    ∧ (∀ d b r, base64Decode raw = some d → inflate d = some b → parse b = some r →
        decodeAuthnRequest parse raw = .ok r) := by
  refine ⟨fun h => ⟨?_, fun inf' parse' => ?_⟩,
          fun d h hi => ⟨?_, fun parse' => ?_⟩,
          fun d b h hi hp => ?_,
          fun d b r h hi hp => ?_⟩ <;>
    simp [decodeAuthnRequest, codecPipeline, h]
  all_goals simp [*]

/-- Claim C2 witness: invalid base64 input is classified `DecodeError`. -/
theorem decode_pipeline_order_and_classification_witness :
    decodeAuthnRequest (fun _ => none) (str ("!!!!"))
      = .error CodecError.DecodeError :=
  ((decode_pipeline_order_and_classification (fun _ => none) (str ("!!!!"))).1
    (by decide)).1

/-- Claim C10: an absent or empty `SAMLRequest` query parameter base64-decodes
successfully to zero bytes, and the exchange then fails at the decompression
step with `InflateError`, not with `DecodeError`. -/
theorem empty_samlrequest_fails_as_inflate_error
    (vs : List (String × List Char)) (parse : List Nat → Option AuthnRequest)
    (h : vs.find? (fun p => p.1 == ("SAMLRequest" : String)) = none
         ∨ valuesGet vs ("SAMLRequest") = []) :
    valuesGet vs ("SAMLRequest") = []
    ∧ base64Decode (valuesGet vs ("SAMLRequest")) = some []
    ∧ inflate [] = none
    ∧ decodeAuthnRequest parse (valuesGet vs ("SAMLRequest"))
        = .error CodecError.InflateError := by
  have he : valuesGet vs ("SAMLRequest") = [] := by
    rcases h with h | h
    · simp [valuesGet, h]
    · exact h
  refine ⟨he, ?_, ?_, ?_⟩
  · rw [he]
    rfl
  · simp [inflate, inflateBlocks]
  · rw [he]
    simp [decodeAuthnRequest, codecPipeline, base64Decode_nil, inflate, inflateBlocks]

/-- Claim C10 witness: a query with no `SAMLRequest` key at all. -/
theorem empty_samlrequest_fails_as_inflate_error_witness :
    valuesGet [] ("SAMLRequest") = []
    ∧ base64Decode (valuesGet [] ("SAMLRequest")) = some []
    ∧ inflate [] = none
    ∧ decodeAuthnRequest (fun _ => none) (valuesGet [] ("SAMLRequest"))
        = .error CodecError.InflateError :=
  empty_samlrequest_fails_as_inflate_error [] (fun _ => none) (Or.inl rfl)

theorem deflateStored_bytes_lt (data : List Nat) (h : ∀ b ∈ data, b < 256) :
    ∀ x ∈ deflateStored data, x < 256 := by
  by_cases hl : data.length ≤ 65535
  · rw [deflateStored, if_pos hl]
    intro x hx
    simp only [List.mem_cons] at hx
    rcases hx with rfl | rfl | rfl | rfl | rfl | hx
    · omega
    · omega
    · omega
    · omega
    · omega
    · exact h x hx
  · rw [deflateStored, if_neg hl]
    have ih := deflateStored_bytes_lt (data.drop 65535)
      (fun b hb => h b (List.drop_subset _ _ hb))
    intro x hx
    simp only [List.mem_cons, List.mem_append] at hx
    rcases hx with rfl | rfl | rfl | rfl | rfl | hx | hx
    · omega
    · omega
    · omega
    · omega
    · omega
    · exact h x (List.take_subset _ _ hx)
    · exact ih x hx
termination_by data.length
decreasing_by
  simp only [List.length_drop]
  omega

/-- Claim C4: deflate-compressing a document, base64-encoding it, and running
the `ServeSSO` decode pipeline yields exactly the request parsed from the
original document bytes. -/
theorem decode_roundtrips_authn_request (doc : List Nat)
    (parse : List Nat → Option AuthnRequest) (req : AuthnRequest)
    (hbytes : ∀ b ∈ doc, b < 256) (hparse : parse doc = some req) :
    decodeAuthnRequest parse (base64Encode (deflateStored doc)) = .ok req := by
  have hb := deflateStored_bytes_lt doc hbytes
  simp only [decodeAuthnRequest, codecPipeline,
    base64_encode_decode (deflateStored doc) hb, inflate_deflateStored, hparse]

/-- Claim C4 witness: a concrete four-byte document. -/
theorem decode_roundtrips_authn_request_witness :
    decodeAuthnRequest (fun _ => some { version := "2.0", issueInstant := "", issuer := "", protocolBinding := "" })
      (base64Encode (deflateStored (bytes ("<a/>"))))
      = Except.ok { version := "2.0", issueInstant := "", issuer := "", protocolBinding := "" } :=
  decode_roundtrips_authn_request (bytes ("<a/>")) _ _ (by decide) rfl

/-- Claim C7: on a successful exchange, the relay state placed in the
rendered redirect form is exactly `values.Get("RelayState")` from the inbound
request, untransformed. -/
theorem serveSSO_relays_state_verbatim {σ : Type}
    (w : RW) (sess : σ)
    (vs : List (String × List Char))
    (parse : List Nat → Option AuthnRequest)
    (makeAssertion : σ → AuthnRequest → Option Assertion)
    (marshalAssertion : Assertion → Option Assertion)
    (makeResponse : Assertion → Option Response)
    (marshalRespIndent : Response → Option (List Nat))
    (data buf : List Nat) (req : AuthnRequest) (asrt asrt2 : Assertion)
    (resp : Response) (out : List Nat)
    (h1 : base64Decode (valuesGet vs ("SAMLRequest")) = some data)
    (h2 : inflate data = some buf)
    (h3 : parse buf = some req)
    (h4 : makeAssertion sess req = some asrt)
    (h5 : marshalAssertion asrt = some asrt2)
    (h6 : makeResponse asrt2 = some resp)
    (h7 : marshalRespIndent resp = some out) :
    serveSSO (w, some sess) vs parse makeAssertion marshalAssertion
      makeResponse marshalRespIndent
      = (w.setHeader ("Content-Type") ("text/html")).write
          ((renderRedirectForm
            { formAction :=
                asrt2.subject.subjectConfirmation.subjectConfirmationData.recipient,
              relayState := valuesGet vs ("RelayState"),
              samlResponse := base64Encode out }).map Char.toNat) := by
  simp only [serveSSO, h1, h2, h3, h4, h5, h6, h7]

/-- Claim C7 witness: a concrete exchange with `RelayState=s1`. -/
theorem serveSSO_relays_state_verbatim_witness :
    serveSSO (emptyRW, some ())
      [("SAMLRequest", base64Encode (deflateStored (bytes ("<a/>")))),
       ("RelayState", str ("s1"))]
      (fun _ => some { version := "2.0", issueInstant := "", issuer := "", protocolBinding := "" })
      (fun _ _ => some { subject := { subjectConfirmation := { subjectConfirmationData := { recipient := str ("https://sp/acs") } } } })
      (fun a => some a)
      (fun _ => some { destination := [], inResponseTo := [], statusCode := [] })
      (fun _ => some (bytes ("<R/>")))
      = (emptyRW.setHeader ("Content-Type") ("text/html")).write
          ((renderRedirectForm
            { formAction := str ("https://sp/acs"),
              relayState := str ("s1"),
              samlResponse := base64Encode (bytes ("<R/>")) }).map Char.toNat) := by
  have hs : valuesGet
      [("SAMLRequest", base64Encode (deflateStored (bytes ("<a/>")))),
       ("RelayState", str ("s1"))] ("SAMLRequest")
      = base64Encode (deflateStored (bytes ("<a/>"))) := by
    simp [valuesGet]
  have hr : valuesGet
      [("SAMLRequest", base64Encode (deflateStored (bytes ("<a/>")))),
       ("RelayState", str ("s1"))] ("RelayState") = str ("s1") := by
    simp [valuesGet]
  have h1 : base64Decode (valuesGet
      [("SAMLRequest", base64Encode (deflateStored (bytes ("<a/>")))),
       ("RelayState", str ("s1"))] ("SAMLRequest"))
      = some (deflateStored (bytes ("<a/>"))) := by
    rw [hs]
    exact base64_encode_decode _ (deflateStored_bytes_lt _ (by decide))
  have h2 := inflate_deflateStored (bytes ("<a/>"))
  have := serveSSO_relays_state_verbatim emptyRW ()
    [("SAMLRequest", base64Encode (deflateStored (bytes ("<a/>")))),
     ("RelayState", str ("s1"))]
    (fun _ => some { version := "2.0", issueInstant := "", issuer := "", protocolBinding := "" })
    (fun _ _ => some { subject := { subjectConfirmation := { subjectConfirmationData := { recipient := str ("https://sp/acs") } } } })
    (fun a => some a)
    (fun _ => some { destination := [], inResponseTo := [], statusCode := [] })
    (fun _ => some (bytes ("<R/>")))
    (deflateStored (bytes ("<a/>"))) (bytes ("<a/>"))
    { version := "2.0", issueInstant := "", issuer := "", protocolBinding := "" }
    { subject := { subjectConfirmation := { subjectConfirmationData := { recipient := str ("https://sp/acs") } } } }
    { subject := { subjectConfirmation := { subjectConfirmationData := { recipient := str ("https://sp/acs") } } } }
    { destination := [], inResponseTo := [], statusCode := [] }
    (bytes ("<R/>"))
    h1 h2 rfl rfl rfl rfl rfl
  rw [hr] at this
  exact this

theorem escChar_no_raw_lt (c : Char) : '<' ∉ escChar c := by
  unfold escChar
  split
  · decide
  · split
    · decide
    · split
      · decide
      · split
        · decide
        · split
          · decide
          · rename_i h1 h2 h3 h4 h5
            intro hmem
            simp only [List.mem_singleton] at hmem
            exact h1 hmem.symm

theorem htmlEscape_no_raw_lt (s : List Char) : '<' ∉ htmlEscape s := by
  intro hmem
  rw [htmlEscape, List.mem_flatMap] at hmem
  obtain ⟨c, _, hc⟩ := hmem
  exact escChar_no_raw_lt c hc

theorem htmlEscape_lt_entity (u v : List Char) :
    htmlEscape (u ++ '<' :: v) = htmlEscape u ++ str ("&lt;") ++ htmlEscape v := by
  simp [htmlEscape, escChar, List.append_assoc]

/-- Claim C1: every dynamic value substituted into the rendered redirect form
(form action, SAMLResponse payload, relay state) appears HTML-escaped, and
the escaping turns `<` into `&lt;` and leaves no raw `<` in any substituted
value. -/
theorem redirect_form_escapes_dynamic_values (f : RedirectForm) :
    occursIn (htmlEscape f.formAction) (renderRedirectForm f)
    ∧ occursIn (htmlEscape f.samlResponse) (renderRedirectForm f)
    ∧ (f.relayState ≠ [] →
        occursIn (str ("value=\"") ++ htmlEscape f.relayState ++ str ("\" />"))
          (renderRedirectForm f))
    ∧ (∀ u v, htmlEscape (u ++ '<' :: v)
        = htmlEscape u ++ str ("&lt;") ++ htmlEscape v)
    ∧ ∀ s, '<' ∉ htmlEscape s := by
  refine ⟨?_, ?_, ?_, htmlEscape_lt_entity, htmlEscape_no_raw_lt⟩
  · exact ⟨str ("<html><body onload=\"document.forms[0].submit()\"><form method=\"post\" action=\""),
      str ("\"><input type=\"hidden\" name=\"SAMLResponse\" value=\"")
      ++ htmlEscape f.samlResponse ++ str ("\" />")
      ++ (if f.relayState = [] then []
          else str ("<input type=\"hidden\" name=\"RelayState\" value=\"")
            ++ htmlEscape f.relayState ++ str ("\" />"))
      ++ str ("<noscript><input type=\"submit\" value=\"Submit\" /></noscript></form></body></html>"),
      by simp [renderRedirectForm, List.append_assoc]⟩
  · exact ⟨str ("<html><body onload=\"document.forms[0].submit()\"><form method=\"post\" action=\"")
      ++ htmlEscape f.formAction
      ++ str ("\"><input type=\"hidden\" name=\"SAMLResponse\" value=\""),
      str ("\" />")
      ++ (if f.relayState = [] then []
          else str ("<input type=\"hidden\" name=\"RelayState\" value=\"")
            ++ htmlEscape f.relayState ++ str ("\" />"))
      ++ str ("<noscript><input type=\"submit\" value=\"Submit\" /></noscript></form></body></html>"),
      by simp [renderRedirectForm, List.append_assoc]⟩
  · intro h
    refine ⟨str ("<html><body onload=\"document.forms[0].submit()\"><form method=\"post\" action=\"")
      ++ htmlEscape f.formAction
      ++ str ("\"><input type=\"hidden\" name=\"SAMLResponse\" value=\"")
      ++ htmlEscape f.samlResponse ++ str ("\" />")
      ++ str ("<input type=\"hidden\" name=\"RelayState\" "),
      str ("<noscript><input type=\"submit\" value=\"Submit\" /></noscript></form></body></html>"),
      ?_⟩
    rw [renderRedirectForm, if_neg h]
    have hsplit : str ("<input type=\"hidden\" name=\"RelayState\" value=\"")
        = str ("<input type=\"hidden\" name=\"RelayState\" ") ++ str ("value=\"") := by
      decide
    rw [hsplit]
    simp [List.append_assoc]

/-- Claim C1 witness: a relay state containing `<` is rendered escaped. -/
theorem redirect_form_escapes_dynamic_values_witness :
    occursIn (str ("value=\"") ++ htmlEscape (str ("a<b")) ++ str ("\" />"))
      (renderRedirectForm { formAction := str ("https://sp/acs"), relayState := str ("a<b"), samlResponse := str ("QUJD") })
    ∧ htmlEscape (str ("a<b")) = str ("a&lt;b") :=
  ⟨(redirect_form_escapes_dynamic_values { formAction := str ("https://sp/acs"), relayState := str ("a<b"), samlResponse := str ("QUJD") }).2.2.1 (by decide),
   by decide⟩

theorem stripLit_self : ∀ lit s : List Nat, stripLit lit (lit ++ s) = some s
  | [], _ => rfl
  | x :: xs, s => by simp [stripLit, stripLit_self xs s]

theorem splitAtByte_self (q : Nat) : ∀ (l r : List Nat), (∀ x ∈ l, x ≠ q) →
    splitAtByte q (l ++ q :: r) = some (l, r)
  | [], r, _ => by simp [splitAtByte]
  | b :: t, r, h => by
    have hb : b ≠ q := h b (by simp)
    simp [splitAtByte, hb, splitAtByte_self q t r (fun x hx => h x (by simp [hx]))]

theorem escByte_safe (b : Nat) : ∀ x ∈ escByte b, x ≠ 34 ∧ x ≠ 60 := by
  intro x hx
  unfold escByte at hx
  split at hx
  · simp at hx
    omega
  · split at hx
    · simp at hx
      omega
    · split at hx
      · simp at hx
        omega
      · split at hx
        · simp at hx
          omega
        · rename_i h38 h60 h62 h34
          simp only [List.mem_singleton] at hx
          subst hx
          exact ⟨h34, h60⟩

theorem escXml_safe (v : List Nat) : ∀ x ∈ escXml v, x ≠ 34 ∧ x ≠ 60 := by
  intro x hx
  rw [escXml, List.mem_flatMap] at hx
  obtain ⟨b, _, hb⟩ := hx
  exact escByte_safe b x hb

theorem escByte_lt (b : Nat) (hb : b < 256) : ∀ x ∈ escByte b, x < 256 := by
  intro x hx
  unfold escByte at hx
  split at hx
  · simp at hx
    omega
  · split at hx
    · simp at hx
      omega
    · split at hx
      · simp at hx
        omega
      · split at hx
        · simp at hx
          omega
        · simp only [List.mem_singleton] at hx
          omega

theorem escXml_lt (v : List Nat) (hv : ∀ b ∈ v, b < 256) :
    ∀ x ∈ escXml v, x < 256 := by
  intro x hx
  rw [escXml, List.mem_flatMap] at hx
  obtain ⟨b, hbv, hb⟩ := hx
  exact escByte_lt b (hv b hbv) x hb

theorem unescXml_escXml : ∀ v : List Nat, unescXml (escXml v) = v
  | [] => by simp [escXml, unescXml]
  | b :: t => by
    have ih : unescXml (t.flatMap escByte) = t := unescXml_escXml t
    by_cases h38 : b = 38
    · subst h38
      simp [escXml, escByte, unescXml, ih]
    · by_cases h60 : b = 60
      · subst h60
        simp [escXml, escByte, unescXml, ih]
      · by_cases h62 : b = 62
        · subst h62
          simp [escXml, escByte, unescXml, ih]
        · by_cases h34 : b = 34
          · subst h34
            simp [escXml, escByte, unescXml, ih]
          · simp [escXml, escByte, unescXml, h38, h60, h62, h34, ih]

theorem marshalResponse_lt (r : Response)
    (h : ∀ b ∈ r.destination ++ r.inResponseTo ++ r.statusCode, b < 256) :
    ∀ x ∈ marshalResponse r, x < 256 := by
  have hd : ∀ b ∈ r.destination, b < 256 := fun b hb => h b (by simp [hb])
  have hi : ∀ b ∈ r.inResponseTo, b < 256 := fun b hb => h b (by simp [hb])
  have hs : ∀ b ∈ r.statusCode, b < 256 := fun b hb => h b (by simp [hb])
  intro x hx
  simp only [marshalResponse, List.mem_append] at hx
  rcases hx with ((((((hx | hx) | hx) | hx) | hx) | hx) | hx)
  · exact (by decide : ∀ y ∈ bytes ("<Response Destination=\""), y < 256) x hx
  · exact escXml_lt _ hd x hx
  · exact (by decide : ∀ y ∈ bytes ("\" InResponseTo=\""), y < 256) x hx
  · exact escXml_lt _ hi x hx
  · exact (by decide : ∀ y ∈ bytes ("\">\n\t<StatusCode>"), y < 256) x hx
  · exact escXml_lt _ hs x hx
  · exact (by decide : ∀ y ∈ bytes ("</StatusCode>\n</Response>"), y < 256) x hx

theorem unmarshal_marshal (r : Response) :
    unmarshalResponse (marshalResponse r) = some r := by
  have e2 : bytes ("\" InResponseTo=\"") = 34 :: bytes (" InResponseTo=\"") := by decide
  have e3 : bytes ("\">\n\t<StatusCode>") = 34 :: bytes (">\n\t<StatusCode>") := by decide
  have e4 : bytes ("</StatusCode>\n</Response>")
      = 60 :: bytes ("/StatusCode>\n</Response>") := by decide
  have nd := fun x hx => (escXml_safe r.destination x hx).1
  have ni := fun x hx => (escXml_safe r.inResponseTo x hx).1
  have ns := fun x hx => (escXml_safe r.statusCode x hx).2
  rw [unmarshalResponse, marshalResponse, e2, e3, e4]
  simp only [List.append_assoc, List.cons_append]
  rw [stripLit_self]
  simp only [Option.some_bind]
  rw [splitAtByte_self 34 _ _ nd]
  simp only [Option.some_bind]
  rw [stripLit_self]
  simp only [Option.some_bind]
  rw [splitAtByte_self 34 _ _ ni]
  simp only [Option.some_bind]
  rw [stripLit_self]
  simp only [Option.some_bind]
  rw [splitAtByte_self 60 _ _ ns]
  simp [unescXml_escXml]

/-- Claim C5: `EncodeResponse` (tab-indented XML marshal then standard
base64), followed by base64-decoding and XML-unmarshalling, returns a
structurally equal `Response`. -/
theorem encodeResponse_roundtrip (r : Response)
    (h : ∀ b ∈ r.destination ++ r.inResponseTo ++ r.statusCode, b < 256) :
    (base64Decode (encodeResponse r)).bind unmarshalResponse = some r := by
  rw [encodeResponse, base64_encode_decode _ (marshalResponse_lt r h)]
  simp [unmarshal_marshal r]

/-- Claim C5 witness: a concrete response value. -/
theorem encodeResponse_roundtrip_witness :
    (base64Decode (encodeResponse { destination := bytes ("https://sp/acs"), inResponseTo := bytes ("id1"), statusCode := bytes ("urn:Success") })).bind unmarshalResponse
      = some { destination := bytes ("https://sp/acs"), inResponseTo := bytes ("id1"), statusCode := bytes ("urn:Success") } :=
  encodeResponse_roundtrip
    { destination := bytes ("https://sp/acs"), inResponseTo := bytes ("id1"), statusCode := bytes ("urn:Success") }
    (by decide)
